import Mathlib

/-!
Verification development for the tcz-proxy repository (Go).

The repository contains three proxy variants in `main.go`:
* the configuration-driven mapping proxy (`NewProxy`, `findMapping`,
  `buildTargetURL`, `ServeHTTP`) — embedded below at the top level of
  namespace `TczProxy`;
* the mirror-failover proxy (`NewProxy(mirrors)`, `tryRequest`,
  `replaceHost`, `ServeHTTP`) — embedded in namespace `TczProxy.Mirror`.

Go strings are modelled as Lean `String`; the Go standard-library calls the
code makes (`regexp`, `net/url`, `net/http`) are modelled by executable Lean
functions faithful to the documented behaviour of those libraries on the
fragment the program exercises.  The HTTP transport (`http.Client.Do`) is a
parameter of the handler functions: a pure function from the outbound
request to either a transport error or a response, and each handler returns,
besides the response written to the client, the ordered list of outbound
requests it issued.
-/

deriving instance DecidableEq for Except

namespace TczProxy

/-! ## Character-list primitives

Go `regexp` semantics are modelled for the fragment of patterns with no
metacharacters (literal patterns): such a pattern matches a string exactly
when it occurs as a contiguous substring, and `ReplaceAllString` replaces
the successive leftmost non-overlapping occurrences, scanning left to right
and advancing past each match, exactly as RE2 does for a literal pattern. -/

/-- Boolean test that `pat` is a leading segment of `s`. -/
def startsWithList : List Char → List Char → Bool
  | [], _ => true
  | _ :: _, [] => false
  | p :: ps, c :: cs => p == c && startsWithList ps cs

/-- Boolean test that `pat` occurs contiguously somewhere in `s`
(the matching performed by Go `Regexp.MatchString` for a literal pattern:
unanchored, a match anywhere counts). -/
def occursList (pat : List Char) : List Char → Bool
  | [] => startsWithList pat []
  | c :: rest => startsWithList pat (c :: rest) || occursList pat rest

/-- Left-to-right scan of Go `Regexp.ReplaceAllString` for a literal
pattern: at each position, if the pattern starts here, emit the replacement
and skip the matched characters; otherwise keep the character and continue.
`skip` counts matched characters still to be consumed.  An empty pattern
matches at every position (including the end), mirroring RE2. -/
def replaceScan (pat tmpl : List Char) : Nat → List Char → List Char
  | 0, [] => if pat.isEmpty then tmpl else []
  | _ + 1, [] => []
  | n + 1, _ :: rest => replaceScan pat tmpl n rest
  | 0, c :: rest =>
    if startsWithList pat (c :: rest) then
      match pat with
      | [] => tmpl ++ c :: replaceScan [] tmpl 0 rest
      | _ :: ps => tmpl ++ replaceScan pat tmpl ps.length rest
    else c :: replaceScan pat tmpl 0 rest

/-- True when no occurrence of `pat` begins at a position inside `a` when
the text continues with `rest` (so a left-to-right scan passes through `a`
without firing). -/
def scanMiss (pat : List Char) : List Char → List Char → Bool
  | [], _ => true
  | c :: a, rest => !startsWithList pat (c :: (a ++ rest)) && scanMiss pat a rest

/-! ## Model of `regexp.Regexp`

The compiled-pattern object is modelled by the two methods the program
calls on it. -/

/-- Model of a compiled `regexp.Regexp`: the two methods used by the
source, `MatchString` and `ReplaceAllString src repl`. -/
structure Regexp where
  MatchString : String → Bool
  ReplaceAllString : String → String → String

/-- The compiled form of a pattern with no metacharacters: substring
matching, leftmost non-overlapping replacement (RE2 semantics restricted to
literal patterns). -/
def Regexp.literal (pat : String) : Regexp where
  MatchString s := occursList pat.data s.data
  ReplaceAllString src repl := ⟨replaceScan pat.data repl.data 0 src.data⟩

/-- Parenthesis-balance check used by the model of `regexp.Compile`; a
backslash escapes the next character. -/
def parensOk : List Char → Nat → Bool
  | [], 0 => true
  | [], _ + 1 => false
  | '\\' :: _ :: rest, d => parensOk rest d
  | '(' :: rest, d => parensOk rest (d + 1)
  | ')' :: _, 0 => false
  | ')' :: rest, d + 1 => parensOk rest d
  | _ :: rest, d => parensOk rest d

/-- Model of `regexp.Compile` on the fragment the development uses: a
pattern with unbalanced parentheses is rejected (as Go rejects it); an
accepted pattern is given the literal-pattern semantics above. -/
def regexpCompile (pat : String) : Except String Regexp :=
  if parensOk pat.data 0 then .ok (.literal pat) else .error "missing closing )"

/-! ## Model of `net/url` on the program's fragment -/

/-- Model of `url.URL`: the four components the program reads or writes. -/
structure URL where
  scheme : String
  host : String
  path : String
  rawQuery : String
deriving DecidableEq

/-- Model of `url.URL.String` on the program's fragment:
`scheme:` then `//host` then path then `?rawQuery`, each part omitted when
its component is empty. -/
def URL.toString (u : URL) : String :=
  (if u.scheme = "" then "" else u.scheme ++ ":") ++
    (if u.host = "" then "" else "//" ++ u.host) ++
    u.path ++
    (if u.rawQuery = "" then "" else "?" ++ u.rawQuery)

/-- True for the characters Go allows inside a URL scheme. -/
def schemeChar (c : Char) : Bool :=
  c.isAlphanum || c == '+' || c == '-' || c == '.'

/-- Split a character list at the first `://`, returning the scheme part
and the remainder; `none` when there is no scheme separator reachable
through scheme characters. -/
def splitScheme : List Char → Option (List Char × List Char)
  | [] => none
  | c :: rest =>
    if startsWithList [':', '/', '/'] (c :: rest) then
      some ([], (c :: rest).drop 3)
    else if schemeChar c then
      match splitScheme rest with
      | some (sch, rem) => some (c :: sch, rem)
      | none => none
    else none

/-- Take the host component: everything up to the first `/` or `?`. -/
def hostSpan : List Char → List Char × List Char
  | [] => ([], [])
  | c :: rest =>
    if c == '/' || c == '?' then ([], c :: rest)
    else
      let (h, r) := hostSpan rest
      (c :: h, r)

/-- Split path from raw query at the first `?` (the `?` is dropped). -/
def querySplit : List Char → List Char × List Char
  | [] => ([], [])
  | c :: rest =>
    if c == '?' then ([], rest)
    else
      let (p, q) := querySplit rest
      (c :: p, q)

/-- Model of `url.Parse` on the program's fragment: an absolute URL
`scheme://host/path?query` parses into its components; a string with an
empty scheme before `://` is rejected (Go: missing protocol scheme); a
string with no scheme separator parses as a relative URL with empty scheme
and host. -/
def urlParse (s : String) : Option URL :=
  match splitScheme s.data with
  | some ([], _) => none
  | some (sch, rest) =>
    let (h, r) := hostSpan rest
    let (p, q) := querySplit r
    some { scheme := ⟨sch⟩, host := ⟨h⟩, path := ⟨p⟩, rawQuery := ⟨q⟩ }
  | none =>
    let (p, q) := querySplit s.data
    some { scheme := "", host := "", path := ⟨p⟩, rawQuery := ⟨q⟩ }

/-! ## Requests, responses, transport -/

/-- Model of the inbound `*http.Request` fields the program reads.
`scheme` and `urlHost` are `r.URL.Scheme` and `r.URL.Host`; `hostHeader`
is `r.Host`; `body` is the identity of the request body stream (`none`
models a nil body). -/
structure Request where
  method : String
  scheme : String
  urlHost : String
  hostHeader : String
  path : String
  rawQuery : String
  headers : List (String × String)
  remoteAddr : String
  body : Option String
deriving DecidableEq

/-- Model of an upstream `*http.Response`: status code, headers, body. -/
structure Response where
  statusCode : Nat
  headers : List (String × String)
  body : String
deriving DecidableEq

/-- The outbound request built by the program: method, target URL, body
stream identity, headers. -/
structure OutboundRequest where
  method : String
  url : String
  body : Option String
  headers : List (String × String)
deriving DecidableEq

/-- The HTTP transport (`http.Client.Do`) as a pure oracle: every outbound
request either transport-fails or yields a response. -/
abbrev Transport := OutboundRequest → Except String Response

/-- What the handler wrote back to the client, together with the ordered
list of outbound requests it issued (the model's observation of upstream
traffic).  Only headers the program explicitly copies are modelled. -/
structure ServeOutcome where
  status : Nat
  headers : List (String × String)
  body : Option String
  sent : List OutboundRequest
deriving DecidableEq

/-- Model of `http.Header.Add`: append the pair. -/
def headerAdd (hs : List (String × String)) (k v : String) :
    List (String × String) :=
  hs ++ [(k, v)]

/-- Model of `http.Header.Set`: drop existing values for the key, then add
the pair. -/
def headerSet (hs : List (String × String)) (k v : String) :
    List (String × String) :=
  hs.filter (fun p => p.1 != k) ++ [(k, v)]

/-- The header-construction block that appears identically in the mapping
proxy's `ServeHTTP` and the mirror proxy's `tryRequest`: copy every
header name/value pair of the original request with `Add`, then `Set`
`X-Forwarded-For` to `r.RemoteAddr` when that is nonempty. -/
def outboundHeaders (r : Request) : List (String × String) :=
  let hs := r.headers.foldl (fun acc p => headerAdd acc p.1 p.2) []
  if r.remoteAddr = "" then hs
  else headerSet hs "X-Forwarded-For" r.remoteAddr

/-! ## The mapping proxy (configuration-driven variant) -/

/-- A `from`/`to` pair of the configuration (`PathMapping` in the source). -/
structure PathMapping where
  From : String
  To : String
deriving DecidableEq

/-- A compiled mapping: compiled pattern plus destination template. -/
structure compiledMapping where
  regex : Regexp
  «to» : String

/-- The mapping proxy: default host, compiled mappings in configured
order, redirect flag (the HTTP client object is the transport parameter). -/
structure Proxy where
  defaultHost : String
  compiledMappings : List compiledMapping
  followRedirects : Bool

/-- The compilation loop of `NewProxy`: compile each pattern in order,
failing on the first invalid one. -/
def compileMappings : List PathMapping → Except String (List compiledMapping)
  | [] => .ok []
  | m :: rest =>
    match regexpCompile m.From with
    | .error e => .error ("invalid regex pattern '" ++ m.From ++ "': " ++ e)
    | .ok regex =>
      match compileMappings rest with
      | .error e => .error e
      | .ok cs => .ok ({ regex := regex, «to» := m.To } :: cs)

/-- Model of `NewProxy`: compile all mappings, then build the proxy; an
invalid pattern aborts construction with an error. -/
def NewProxy (defaultHost : String) (mappings : List PathMapping)
    (followRedirects : Bool) : Except String Proxy :=
  match compileMappings mappings with
  | .error e => .error e
  | .ok compiled =>
    .ok { defaultHost := defaultHost, compiledMappings := compiled,
          followRedirects := followRedirects }

/-- The loop body of `findMapping`: first mapping whose pattern matches
wins, and the result is `ReplaceAllString` of the whole input with the
mapping's template. -/
def findMappingList : List compiledMapping → String → Option String
  | [], _ => none
  | m :: rest, path =>
    if m.regex.MatchString path then some (m.regex.ReplaceAllString path m.«to»)
    else findMappingList rest path

/-- Model of `Proxy.findMapping` (returns `none` for Go's `("", false)`). -/
def Proxy.findMapping (p : Proxy) (path : String) : Option String :=
  findMappingList p.compiledMappings path

/-- The string `buildTargetURL` matches mappings against: the request path,
with `?` and the raw query appended when the query is nonempty. -/
def requestMatchInput (r : Request) : String :=
  r.path ++ (if r.rawQuery = "" then "" else "?" ++ r.rawQuery)

/-- Model of `Proxy.buildTargetURL`: mapping lookup on the path-plus-query
string; on no match, fall back to the default host, keeping the request's
path and query; error when the default host is empty or unparseable. -/
def Proxy.buildTargetURL (p : Proxy) (r : Request) : Except String String :=
  let originalPath := requestMatchInput r
  match p.findMapping originalPath with
  | some mappedURL => .ok mappedURL
  | none =>
    if p.defaultHost = "" then
      .error "no default host configured and no mapping matched"
    else
      match urlParse p.defaultHost with
      | none => .error "invalid default host"
      | some parsed =>
        .ok (URL.toString
          { scheme := parsed.scheme, host := parsed.host,
            path := r.path, rawQuery := r.rawQuery })

/-- The outbound request the mapping proxy's `ServeHTTP` builds:
`http.NewRequest(r.Method, targetURL, r.Body)` plus the header block. -/
def mkProxyRequest (r : Request) (targetURL : String) : OutboundRequest :=
  { method := r.method, url := targetURL, body := r.body,
    headers := outboundHeaders r }

/-- Model of the mapping proxy's `ServeHTTP`: resolve the target (502 with
no outbound request on failure), forward once, 502 on transport failure,
otherwise relay status, headers and body.  `http.Error` bodies carry the
message plus a newline; `http.NewRequest` is total on the model's
fragment. -/
def Proxy.ServeHTTP (p : Proxy) (r : Request) (doReq : Transport) :
    ServeOutcome :=
  match p.buildTargetURL r with
  | .error e =>
    { status := 502, headers := [],
      body := some ("Failed to build target URL: " ++ e ++ "\n"), sent := [] }
  | .ok targetURL =>
    let proxyReq := mkProxyRequest r targetURL
    match doReq proxyReq with
    | .error _ =>
      { status := 502, headers := [],
        body := some "Failed to reach target server\n", sent := [proxyReq] }
    | .ok resp =>
      { status := resp.statusCode, headers := resp.headers,
        body := some resp.body, sent := [proxyReq] }

/-! ## The mirror-failover proxy variant -/

namespace Mirror

/-- The mirror proxy: an ordered list of mirror base URLs (the HTTP client
object is again the transport parameter). -/
structure Proxy where
  mirrors : List String
deriving DecidableEq

/-- The outbound request `tryRequest` builds:
`http.NewRequest(r.Method, targetURL, nil)` — note the nil body — plus the
same header block as the mapping proxy. -/
def tryRequestReq (targetURL : String) (r : Request) : OutboundRequest :=
  { method := r.method, url := targetURL, body := none,
    headers := outboundHeaders r }

/-- Model of `tryRequest`: build the outbound request and run it through
the transport. -/
def tryRequest (targetURL : String) (r : Request) (doReq : Transport) :
    Except String Response :=
  doReq (tryRequestReq targetURL r)

/-- Model of `replaceHost`: parse both URLs, substitute the mirror's scheme
and host into the original target, and print; `none` on a parse failure of
either argument (Go returns an error then). -/
def replaceHost (originalURL newHost : String) : Option String :=
  match urlParse originalURL with
  | none => none
  | some parsed =>
    match urlParse newHost with
    | none => none
    | some mirrorParsed =>
      some (URL.toString
        { parsed with scheme := mirrorParsed.scheme, host := mirrorParsed.host })

/-- The target URL the mirror proxy's `ServeHTTP` computes from the inbound
request: `r.URL.String()` when the URL carries a scheme (absolute form),
otherwise `http://` plus the Host header plus path and query. -/
def requestTargetURL (r : Request) : String :=
  if r.scheme = "" then
    "http://" ++ r.hostHeader ++ r.path ++
      (if r.rawQuery = "" then "" else "?" ++ r.rawQuery)
  else
    URL.toString
      { scheme := r.scheme, host := r.urlHost,
        path := r.path, rawQuery := r.rawQuery }

/-- The mirror loop of the mirror proxy's `ServeHTTP`: rewrite the target
to each mirror in order (skipping a mirror whose rewrite fails), forward
(skipping a mirror whose transport fails), and stop at the first response
whose status is not 404, which replaces the primary response.  Returns that
replacement, if any, together with the outbound requests attempted. -/
def tryMirrors (doReq : Transport) (r : Request) (targetURL : String) :
    List String → Option Response × List OutboundRequest
  | [] => (none, [])
  | mirror :: rest =>
    match replaceHost targetURL mirror with
    | none => tryMirrors doReq r targetURL rest
    | some mirrorURL =>
      let req := tryRequestReq mirrorURL r
      match doReq req with
      | .error _ =>
        ((tryMirrors doReq r targetURL rest).1,
         req :: (tryMirrors doReq r targetURL rest).2)
      | .ok mirrorResp =>
        if mirrorResp.statusCode ≠ 404 then (some mirrorResp, [req])
        else
          ((tryMirrors doReq r targetURL rest).1,
           req :: (tryMirrors doReq r targetURL rest).2)

/-- The outbound requests the mirror loop sends for a given mirror list:
one per mirror whose host rewrite succeeds (a transport failure still
counts as an attempt; a rewrite failure does not). -/
def attemptedReqs (r : Request) (targetURL : String) :
    List String → List OutboundRequest
  | [] => []
  | mirror :: rest =>
    match replaceHost targetURL mirror with
    | none => attemptedReqs r targetURL rest
    | some mirrorURL => tryRequestReq mirrorURL r :: attemptedReqs r targetURL rest

/-- A mirror that the loop passes over without adopting its response: its
host rewrite fails, or its request transport-fails, or it answers 404. -/
def mirrorSkipped (doReq : Transport) (r : Request)
    (targetURL mirror : String) : Bool :=
  match replaceHost targetURL mirror with
  | none => true
  | some mirrorURL =>
    match doReq (tryRequestReq mirrorURL r) with
    | .error _ => true
    | .ok resp => resp.statusCode == 404

/-- Model of the mirror proxy's `ServeHTTP`: forward to the primary target
(502 on transport failure); if the primary answers 404 and mirrors are
configured, close the primary body and run the mirror loop.  The outcome's
`body` field is the body bytes actually delivered to the client by
`io.Copy(w, resp.Body)`.  When the loop adopts a replacement response its
body stream is still open and is relayed in full.  When it adopts none,
the variable still holds the primary response, whose body stream was
closed before the loop: the primary's status and headers are written, but
the copy reads a closed body (`read on closed response body`), the error
is only logged, and zero body bytes reach the client — modelled as
`some ""`. -/
def Proxy.ServeHTTP (p : Proxy) (r : Request) (doReq : Transport) :
    ServeOutcome :=
  let targetURL := requestTargetURL r
  let req0 := tryRequestReq targetURL r
  match doReq req0 with
  | .error _ =>
    { status := 502, headers := [],
      body := some "Failed to reach target server\n", sent := [req0] }
  | .ok resp0 =>
    if resp0.statusCode = 404 ∧ p.mirrors ≠ [] then
      let mres := tryMirrors doReq r targetURL p.mirrors
      match mres.1 with
      | some resp =>
        { status := resp.statusCode, headers := resp.headers,
          body := some resp.body, sent := req0 :: mres.2 }
      | none =>
        { status := resp0.statusCode, headers := resp0.headers,
          body := some "", sent := req0 :: mres.2 }
    else
      { status := resp0.statusCode, headers := resp0.headers,
        body := some resp0.body, sent := [req0] }

end Mirror

/-! ## Concrete fixtures used to evaluate the model on explicit inputs -/

/-- A plain inbound request for the mapping proxy: origin-form URL with a
path, a query string, one client header, a client address and no body. -/
def reqPlain : Request :=
  { method := "GET", scheme := "", urlHost := "", hostHeader := "localhost",
    path := "/some/path", rawQuery := "key=value",
    headers := [("User-Agent", "test-agent")],
    remoteAddr := "192.0.2.1:1234", body := none }

/-- An absolute-form inbound request for the mirror proxy. -/
def reqMirror : Request :=
  { method := "GET", scheme := "http", urlHost := "primary.test",
    hostHeader := "primary.test", path := "/file.txt", rawQuery := "",
    headers := [("User-Agent", "test-agent")],
    remoteAddr := "192.0.2.1:1234", body := none }

/-- A transport in which the primary answers 404, the first mirror answers
404 and the second answers 200 (the failover scenario of the repository's
own tests). -/
def oracleFailover : Transport := fun req =>
  if req.url = "http://primary.test/file.txt" then
    .ok ⟨404, [("X-Who", "primary")], "primary not found"⟩
  else if req.url = "http://m1.test/file.txt" then
    .ok ⟨404, [("X-Who", "m1")], "m1 not found"⟩
  else if req.url = "http://m2.test/file.txt" then
    .ok ⟨200, [("X-Who", "m2")], "found on mirror"⟩
  else .error "unreachable"

/-- A transport in which the primary and both mirrors all answer 404, with
distinct headers and bodies so the responses can be told apart. -/
def oracleAll404 : Transport := fun req =>
  if req.url = "http://primary.test/file.txt" then
    .ok ⟨404, [("X-Who", "primary")], "primary not found"⟩
  else if req.url = "http://m1.test/file.txt" then
    .ok ⟨404, [("X-Who", "m1")], "m1 not found"⟩
  else if req.url = "http://m2.test/file.txt" then
    .ok ⟨404, [("X-Who", "m2")], "m2 not found"⟩
  else .error "unreachable"

/-! ## Helper lemmas about the string primitives -/

theorem startsWith_append_self (pat s : List Char) :
    startsWithList pat (pat ++ s) = true := by
  induction pat with
  | nil => rfl
  | cons p ps ih => simp [startsWithList, ih]

theorem occurs_of_startsWith {pat s : List Char}
    (h : startsWithList pat s = true) : occursList pat s = true := by
  cases s with
  | nil => simpa [occursList] using h
  | cons c rest => simp [occursList, h]

theorem occurs_append_mid (pat xs ys : List Char) :
    occursList pat (xs ++ (pat ++ ys)) = true := by
  induction xs with
  | nil => exact occurs_of_startsWith (startsWith_append_self pat ys)
  | cons x xs ih => simp [occursList, ih]

theorem replaceScan_skip (pat tmpl : List Char) (xs s : List Char) :
    replaceScan pat tmpl xs.length (xs ++ s) = replaceScan pat tmpl 0 s := by
  induction xs with
  | nil => rfl
  | cons x xs ih => simpa [replaceScan] using ih

theorem replaceScan_hit {pat : List Char} (tmpl s : List Char) (h : pat ≠ []) :
    replaceScan pat tmpl 0 (pat ++ s) = tmpl ++ replaceScan pat tmpl 0 s := by
  cases pat with
  | nil => exact absurd rfl h
  | cons p ps =>
    have hs : startsWithList (p :: ps) ((p :: ps) ++ s) = true :=
      startsWith_append_self _ s
    simp only [List.cons_append] at hs
    simp [replaceScan, hs, replaceScan_skip]

theorem replaceScan_miss {pat : List Char} (tmpl : List Char) {a rest : List Char}
    (h : scanMiss pat a rest = true) :
    replaceScan pat tmpl 0 (a ++ rest) = a ++ replaceScan pat tmpl 0 rest := by
  induction a with
  | nil => rfl
  | cons c a ih =>
    simp only [scanMiss, Bool.and_eq_true, Bool.not_eq_true'] at h
    simp [replaceScan, h.1, ih h.2]

theorem replaceScan_of_not_occurs {pat : List Char} (tmpl : List Char)
    {s : List Char} (h : occursList pat s = false) :
    replaceScan pat tmpl 0 s = s := by
  induction s with
  | nil =>
    have hsw : startsWithList pat [] = false := by simpa [occursList] using h
    have hp : pat.isEmpty = false := by
      cases pat with
      | nil => simp [startsWithList] at hsw
      | cons p ps => rfl
    simp [replaceScan, hp]
  | cons c rest ih =>
    simp only [occursList, Bool.or_eq_false_iff] at h
    simp [replaceScan, h.1, ih h.2]

/-! ## Helper lemmas about the mapping proxy -/

theorem findMappingList_first {pre : List compiledMapping} {m : compiledMapping}
    (post : List compiledMapping) {path : String}
    (hpre : ∀ m' ∈ pre, m'.regex.MatchString path = false)
    (hm : m.regex.MatchString path = true) :
    findMappingList (pre ++ m :: post) path
      = some (m.regex.ReplaceAllString path m.«to») := by
  induction pre with
  | nil => simp [findMappingList, hm]
  | cons q pre ih =>
    have hq := hpre q (by simp)
    simp only [List.cons_append, findMappingList, hq, Bool.false_eq_true,
      if_false]
    exact ih (fun m' hmem => hpre m' (by simp [hmem]))

theorem foldl_headerAdd (l : List (String × String)) :
    ∀ acc, l.foldl (fun acc p => headerAdd acc p.1 p.2) acc = acc ++ l := by
  induction l with
  | nil => intro acc; simp
  | cons p l ih =>
    intro acc
    rw [List.foldl_cons, ih]
    simp [headerAdd]

theorem outboundHeaders_mem {r : Request} {n v : String}
    (hmem : (n, v) ∈ r.headers) (hn : n ≠ "X-Forwarded-For") :
    (n, v) ∈ outboundHeaders r := by
  unfold outboundHeaders
  rw [foldl_headerAdd]
  by_cases h : r.remoteAddr = ""
  · simpa [h] using hmem
  · simp only [h, if_false, headerSet, List.mem_append, List.mem_filter]
    exact Or.inl ⟨by simpa using hmem, by simpa using hn⟩

theorem outboundHeaders_xff {r : Request} (h : r.remoteAddr ≠ "") :
    ("X-Forwarded-For", r.remoteAddr) ∈ outboundHeaders r := by
  unfold outboundHeaders
  simp [h, headerSet]

/-! ## Helper lemmas about the mirror loop -/

theorem tryMirrors_append_skipped (doReq : Transport) (r : Request) (t : String)
    {pre : List String} (ms : List String)
    (h : ∀ m' ∈ pre, Mirror.mirrorSkipped doReq r t m' = true) :
    Mirror.tryMirrors doReq r t (pre ++ ms)
      = ((Mirror.tryMirrors doReq r t ms).1,
         Mirror.attemptedReqs r t pre ++ (Mirror.tryMirrors doReq r t ms).2) := by
  induction pre with
  | nil => simp [Mirror.attemptedReqs]
  | cons m pre ih =>
    have hm := h m (by simp)
    have ih' := ih (fun m' hmem => h m' (by simp [hmem]))
    unfold Mirror.mirrorSkipped at hm
    cases hrh : Mirror.replaceHost t m with
    | none =>
      rw [hrh] at hm
      simp [Mirror.tryMirrors, Mirror.attemptedReqs, hrh, ih']
    | some mu =>
      rw [hrh] at hm
      cases hdo : doReq (Mirror.tryRequestReq mu r) with
      | error e =>
        simp [Mirror.tryMirrors, Mirror.attemptedReqs, hrh, hdo, ih']
      | ok resp =>
        simp only [hdo] at hm
        have h404 : resp.statusCode = 404 := by simpa using hm
        simp [Mirror.tryMirrors, Mirror.attemptedReqs, hrh, hdo, h404, ih']

theorem tryMirrors_hit (doReq : Transport) (r : Request) (t : String)
    {m : String} (post : List String) {mu : String} {resp : Response}
    (hrh : Mirror.replaceHost t m = some mu)
    (hdo : doReq (Mirror.tryRequestReq mu r) = .ok resp)
    (hne : resp.statusCode ≠ 404) :
    Mirror.tryMirrors doReq r t (m :: post)
      = (some resp, [Mirror.tryRequestReq mu r]) := by
  simp [Mirror.tryMirrors, hrh, hdo, hne]

theorem tryMirrors_sent_shape (doReq : Transport) (r : Request) (t : String) :
    ∀ (ms : List String), ∀ req ∈ (Mirror.tryMirrors doReq r t ms).2,
      ∃ u, req = Mirror.tryRequestReq u r := by
  intro ms
  induction ms with
  | nil => simp [Mirror.tryMirrors]
  | cons m rest ih =>
    intro req hreq
    unfold Mirror.tryMirrors at hreq
    cases hrh : Mirror.replaceHost t m with
    | none =>
      rw [hrh] at hreq
      exact ih req hreq
    | some mu =>
      rw [hrh] at hreq
      cases hdo : doReq (Mirror.tryRequestReq mu r) with
      | error e =>
        simp only [hdo, List.mem_cons] at hreq
        cases hreq with
        | inl heq => exact ⟨mu, heq⟩
        | inr hmem => exact ih req hmem
      | ok resp =>
        simp only [hdo] at hreq
        by_cases h404 : resp.statusCode = 404
        · simp only [h404, ne_eq, not_true_eq_false, if_false,
            List.mem_cons] at hreq
          cases hreq with
          | inl heq => exact ⟨mu, heq⟩
          | inr hmem => exact ih req hmem
        · simp only [if_pos h404, List.mem_singleton] at hreq
          exact ⟨mu, hreq⟩

/-- Claim C1, counterexample.  The claim states that the resolved target
equals the matching mapping's template with its capture-group references
substituted.  For the mapping `b → X` (no capture groups, so the
substituted template is `X` itself) and the path `/abc`, `findMapping`
instead returns `/aXc`: the path with the matched region replaced and the
surrounding text retained — not the template. -/
theorem claim_C1_counterexample :
    findMappingList [{ regex := Regexp.literal "b", «to» := "X" }] "/abc"
      = some "/aXc" ∧ ("/aXc" : String) ≠ "X" := by
  decide

/-- Claim C1, amended.  For every ordered mapping list, if mapping `m` is
the first whose pattern matches the routed string, the resolved target is
the routed string with every match of `m`'s pattern replaced by the
substituted template (`ReplaceAllString`), which equals the substituted
template alone only when the match spans the whole string; the first
matching mapping always wins, whatever the later mappings would do. -/
theorem claim_C1_first_match_wins {pre : List compiledMapping}
    {m : compiledMapping} (post : List compiledMapping) {path : String}
    (hpre : ∀ m' ∈ pre, m'.regex.MatchString path = false)
    (hm : m.regex.MatchString path = true) :
    findMappingList (pre ++ m :: post) path
      = some (m.regex.ReplaceAllString path m.«to») :=
  findMappingList_first post hpre hm

/-- Claim C1, witness: with mappings `zz → Y`, `b → X`, `a → Z` (the last
also matches), the path `/abc` resolves through the first matching mapping
`b → X`, to `/aXc`. -/
theorem claim_C1_witness :
    findMappingList
        ([{ regex := Regexp.literal "zz", «to» := "Y" }] ++
          { regex := Regexp.literal "b", «to» := "X" } ::
            [{ regex := Regexp.literal "a", «to» := "Z" }]) "/abc"
      = some "/aXc" :=
  claim_C1_first_match_wins _ (by decide) (by decide)

/-- Claim C3, counterexample.  The claim states that every forwarding
attempt, including the mirror-variant attempts, carries the original body
stream.  `tryRequest` builds its outbound request with a nil body
(`http.NewRequest(r.Method, targetURL, nil)`), so for a request carrying a
body the outbound body differs from the original. -/
theorem claim_C3_counterexample :
    (Mirror.tryRequestReq "http://primary.test/file.txt"
        { reqMirror with body := some "payload" }).body
      ≠ ({ reqMirror with body := some "payload" } : Request).body := by
  decide

/-- Claim C3, amended.  The mapping proxy's `ServeHTTP` builds its single
outbound request with the original method and the original body stream;
the mirror variant's `tryRequest` keeps the method but always sends a nil
body, and every outbound request the mirror variant issues — the primary
attempt and each mirror attempt — has the original method and a nil
body. -/
theorem claim_C3_method_kept_body_nil_on_mirrors :
    (∀ (r : Request) (url : String),
        (mkProxyRequest r url).method = r.method ∧
        (mkProxyRequest r url).body = r.body) ∧
    (∀ (url : String) (r : Request),
        (Mirror.tryRequestReq url r).method = r.method ∧
        (Mirror.tryRequestReq url r).body = none) ∧
    (∀ (p : Mirror.Proxy) (r : Request) (doReq : Transport),
        ∀ req ∈ (Mirror.Proxy.ServeHTTP p r doReq).sent,
          req.method = r.method ∧ req.body = none) := by
  refine ⟨fun r url => ⟨rfl, rfl⟩, fun url r => ⟨rfl, rfl⟩, ?_⟩
  intro p r doReq req hreq
  unfold Mirror.Proxy.ServeHTTP at hreq
  cases hdo : doReq (Mirror.tryRequestReq (Mirror.requestTargetURL r) r) with
  | error e =>
    simp only [hdo, List.mem_singleton] at hreq
    subst hreq; exact ⟨rfl, rfl⟩
  | ok resp0 =>
    simp only [hdo] at hreq
    by_cases hc : resp0.statusCode = 404 ∧ p.mirrors ≠ []
    · have hreq' : req = Mirror.tryRequestReq (Mirror.requestTargetURL r) r ∨
          req ∈ (Mirror.tryMirrors doReq r (Mirror.requestTargetURL r)
            p.mirrors).2 := by
        cases hm1 : (Mirror.tryMirrors doReq r (Mirror.requestTargetURL r)
            p.mirrors).1 with
        | some resp2 => simpa only [if_pos hc, hm1, List.mem_cons] using hreq
        | none => simpa only [if_pos hc, hm1, List.mem_cons] using hreq
      cases hreq' with
      | inl heq => subst heq; exact ⟨rfl, rfl⟩
      | inr hmem =>
        obtain ⟨u, rfl⟩ :=
          tryMirrors_sent_shape doReq r (Mirror.requestTargetURL r)
            p.mirrors req hmem
        exact ⟨rfl, rfl⟩
    · simp only [if_neg hc, List.mem_singleton] at hreq
      subst hreq; exact ⟨rfl, rfl⟩

/-- Claim C3, witness: the first mirror attempt of the failover fixture
carries the original method and a nil body. -/
theorem claim_C3_witness :
    (Mirror.tryRequestReq "http://m1.test/file.txt" reqMirror).method
        = reqMirror.method ∧
    (Mirror.tryRequestReq "http://m1.test/file.txt" reqMirror).body = none :=
  claim_C3_method_kept_body_nil_on_mirrors.2.2
    ⟨["http://m1.test", "http://m2.test"]⟩ reqMirror oracleFailover
    (Mirror.tryRequestReq "http://m1.test/file.txt" reqMirror) (by decide)

/-- Claim C4.  When the primary target answers 404 and mirrors are
configured, the mirrors are tried strictly in configured order: writing the
mirror list as `pre ++ m :: post` where every mirror of `pre` is skipped
(its URL rewrite fails, its request transport-fails, or it answers 404) and
`m` is the first mirror whose rewritten request succeeds with a status
other than 404, the handler returns `m`'s response to the client, and the
outbound requests issued are exactly: the primary attempt, then one per
`pre`-mirror whose rewrite succeeded, in order, then `m`'s — no mirror of
`post` is ever contacted. -/
theorem claim_C4_mirror_failover_order (p : Mirror.Proxy) (r : Request)
    (doReq : Transport) {pre : List String} {m : String}
    (post : List String) {mu : String} {resp0 mresp : Response}
    (hmirrors : p.mirrors = pre ++ m :: post)
    (h0 : doReq (Mirror.tryRequestReq (Mirror.requestTargetURL r) r)
      = .ok resp0)
    (h404 : resp0.statusCode = 404)
    (hpre : ∀ m' ∈ pre,
      Mirror.mirrorSkipped doReq r (Mirror.requestTargetURL r) m' = true)
    (hrw : Mirror.replaceHost (Mirror.requestTargetURL r) m = some mu)
    (hok : doReq (Mirror.tryRequestReq mu r) = .ok mresp)
    (hne : mresp.statusCode ≠ 404) :
    Mirror.Proxy.ServeHTTP p r doReq
      = { status := mresp.statusCode, headers := mresp.headers,
          body := some mresp.body,
          sent := Mirror.tryRequestReq (Mirror.requestTargetURL r) r ::
            (Mirror.attemptedReqs r (Mirror.requestTargetURL r) pre ++
              [Mirror.tryRequestReq mu r]) } := by
  have hms : Mirror.tryMirrors doReq r (Mirror.requestTargetURL r) p.mirrors
      = (some mresp,
         Mirror.attemptedReqs r (Mirror.requestTargetURL r) pre ++
           [Mirror.tryRequestReq mu r]) := by
    rw [hmirrors,
      tryMirrors_append_skipped doReq r (Mirror.requestTargetURL r)
        (m :: post) hpre,
      tryMirrors_hit doReq r (Mirror.requestTargetURL r) post hrw hok hne]
  have hcond : resp0.statusCode = 404 ∧ p.mirrors ≠ [] :=
    ⟨h404, by simp [hmirrors]⟩
  unfold Mirror.Proxy.ServeHTTP
  simp only [h0, if_pos hcond, hms, Option.getD_some]

/-- Claim C4, witness: in the failover fixture (primary 404, first mirror
404, second mirror 200), the handler returns the second mirror's response
and contacts primary, first mirror, second mirror in that order. -/
theorem claim_C4_witness :
    Mirror.Proxy.ServeHTTP ⟨["http://m1.test", "http://m2.test"]⟩ reqMirror
        oracleFailover
      = { status := 200, headers := [("X-Who", "m2")],
          body := some "found on mirror",
          sent := Mirror.tryRequestReq (Mirror.requestTargetURL reqMirror)
              reqMirror ::
            (Mirror.attemptedReqs reqMirror
                (Mirror.requestTargetURL reqMirror) ["http://m1.test"] ++
              [Mirror.tryRequestReq "http://m2.test/file.txt" reqMirror]) } :=
  @claim_C4_mirror_failover_order ⟨["http://m1.test", "http://m2.test"]⟩
    reqMirror oracleFailover ["http://m1.test"] "http://m2.test" []
    "http://m2.test/file.txt" ⟨404, [("X-Who", "primary")], "primary not found"⟩
    ⟨200, [("X-Who", "m2")], "found on mirror"⟩
    (by decide) (by decide) (by decide) (by decide) (by decide) (by decide)
    (by decide)

/-- Claim C5, counterexample.  The claim states that when the primary and
every mirror answer 404, the response returned is the last one obtained,
the final mirror's.  In the all-404 fixture the handler instead writes the
primary's 404 response (the loop never reassigns the response variable on
a 404 mirror answer): the client sees the primary's headers, not the final
mirror's, and — the primary's body stream having been closed before the
mirror loop — no body bytes at all, in particular not the final mirror's
body. -/
theorem claim_C5_counterexample :
    (Mirror.Proxy.ServeHTTP ⟨["http://m1.test", "http://m2.test"]⟩ reqMirror
        oracleAll404).headers
      = [("X-Who", "primary")] ∧
    (Mirror.Proxy.ServeHTTP ⟨["http://m1.test", "http://m2.test"]⟩ reqMirror
        oracleAll404).headers
      ≠ [("X-Who", "m2")] ∧
    (Mirror.Proxy.ServeHTTP ⟨["http://m1.test", "http://m2.test"]⟩ reqMirror
        oracleAll404).body
      ≠ some "m2 not found" := by
  decide

/-- Claim C5, amended.  When the primary answers 404 and every configured
mirror is skipped (URL rewrite failure, transport failure, or a 404
answer), the handler writes the primary's 404 status and headers — not the
final mirror's — and delivers no body bytes, because the primary's body
stream was closed before the mirror loop and the body copy fails on the
closed stream; the overall result is still a 404 response, and every
mirror whose rewrite succeeded was attempted, in order. -/
theorem claim_C5_all_mirrors_notfound (p : Mirror.Proxy) (r : Request)
    (doReq : Transport) {resp0 : Response}
    (h0 : doReq (Mirror.tryRequestReq (Mirror.requestTargetURL r) r)
      = .ok resp0)
    (h404 : resp0.statusCode = 404)
    (hne : p.mirrors ≠ [])
    (hall : ∀ m' ∈ p.mirrors,
      Mirror.mirrorSkipped doReq r (Mirror.requestTargetURL r) m' = true) :
    Mirror.Proxy.ServeHTTP p r doReq
      = { status := 404, headers := resp0.headers, body := some "",
          sent := Mirror.tryRequestReq (Mirror.requestTargetURL r) r ::
            Mirror.attemptedReqs r (Mirror.requestTargetURL r) p.mirrors } := by
  have hms : Mirror.tryMirrors doReq r (Mirror.requestTargetURL r) p.mirrors
      = (none, Mirror.attemptedReqs r (Mirror.requestTargetURL r) p.mirrors) := by
    have h := tryMirrors_append_skipped doReq r (Mirror.requestTargetURL r)
      [] hall
    simpa [Mirror.tryMirrors] using h
  have hcond : resp0.statusCode = 404 ∧ p.mirrors ≠ [] := ⟨h404, hne⟩
  unfold Mirror.Proxy.ServeHTTP
  simp only [h0]
  rw [if_pos hcond]
  simp only [hms, h404]

/-- Claim C5, witness: in the all-404 fixture the handler writes the
primary's 404 status and headers with an empty body, both mirrors having
been attempted. -/
theorem claim_C5_witness :
    Mirror.Proxy.ServeHTTP ⟨["http://m1.test", "http://m2.test"]⟩ reqMirror
        oracleAll404
      = { status := 404, headers := [("X-Who", "primary")],
          body := some "",
          sent := Mirror.tryRequestReq (Mirror.requestTargetURL reqMirror)
              reqMirror ::
            Mirror.attemptedReqs reqMirror
              (Mirror.requestTargetURL reqMirror)
              ["http://m1.test", "http://m2.test"] } :=
  @claim_C5_all_mirrors_notfound ⟨["http://m1.test", "http://m2.test"]⟩
    reqMirror oracleAll404
    ⟨404, [("X-Who", "primary")], "primary not found"⟩
    (by decide) (by decide) (by decide) (by decide)

/-- Claim C6.  For a request whose routed string matches no mapping, with a
nonempty default host that parses to a scheme and a host, the resolved
target is `scheme://host` followed by the request's path unchanged and, if
the query is nonempty, `?` followed by the query unchanged. -/
theorem claim_C6_default_host_fallback (p : Proxy) (r : Request) {u : URL}
    (hnm : findMappingList p.compiledMappings (requestMatchInput r) = none)
    (hdh : p.defaultHost ≠ "")
    (hup : urlParse p.defaultHost = some u)
    (hs : u.scheme ≠ "") (hh : u.host ≠ "") :
    p.buildTargetURL r
      = .ok (u.scheme ++ "://" ++ u.host ++ r.path ++
          (if r.rawQuery = "" then "" else "?" ++ r.rawQuery)) := by
  unfold Proxy.buildTargetURL Proxy.findMapping
  simp only [hnm, if_neg hdh, hup, URL.toString, if_neg hs, if_neg hh]
  congr 1
  have hcs : (":" : String) ++ "//" = "://" := rfl
  rw [String.append_assoc, String.append_assoc, String.append_assoc,
    String.append_assoc, ← String.append_assoc ":" "//",
    hcs, ← String.append_assoc, ← String.append_assoc, ← String.append_assoc]

/-- Claim C6, witness: with default host `https://default.com` and no
mappings, the fixture request for `/some/path?key=value` resolves to
`https://default.com/some/path?key=value`. -/
theorem claim_C6_witness :
    Proxy.buildTargetURL ⟨"https://default.com", [], false⟩ reqPlain
      = .ok "https://default.com/some/path?key=value" :=
  claim_C6_default_host_fallback ⟨"https://default.com", [], false⟩ reqPlain
    (by decide) (by decide)
    (show urlParse "https://default.com" = some ⟨"https", "default.com", "", ""⟩
      by decide)
    (by decide) (by decide)

/-- Claim C7.  For a request whose routed string matches no mapping, with
an empty default host, target resolution fails and the handler answers 502
Bad Gateway carrying the resolution error message, without issuing any
outbound request. -/
theorem claim_C7_no_route_means_502 (p : Proxy) (r : Request)
    (doReq : Transport)
    (hdh : p.defaultHost = "")
    (hnm : findMappingList p.compiledMappings (requestMatchInput r) = none) :
    Proxy.ServeHTTP p r doReq
      = { status := 502, headers := [],
          body := some
            "Failed to build target URL: no default host configured and no mapping matched\n",
          sent := [] } := by
  unfold Proxy.ServeHTTP Proxy.buildTargetURL Proxy.findMapping
  simp [hnm, hdh]

/-- Claim C7, witness: the fixture request against a proxy with no default
host and no mappings gets a 502 and no outbound request is issued. -/
theorem claim_C7_witness :
    Proxy.ServeHTTP ⟨"", [], false⟩ reqPlain oracleFailover
      = { status := 502, headers := [],
          body := some
            "Failed to build target URL: no default host configured and no mapping matched\n",
          sent := [] } :=
  claim_C7_no_route_means_502 ⟨"", [], false⟩ reqPlain oracleFailover
    (by decide) (by decide)

theorem compileMappings_error {bad : PathMapping} {e : String}
    (pre post : List PathMapping)
    (hbad : regexpCompile bad.From = .error e) :
    ∃ msg, compileMappings (pre ++ bad :: post) = .error msg := by
  induction pre with
  | nil =>
    exact ⟨"invalid regex pattern '" ++ bad.From ++ "': " ++ e,
      by simp [compileMappings, hbad]⟩
  | cons q pre ih =>
    obtain ⟨msg, hmsg⟩ := ih
    cases hq : regexpCompile q.From with
    | error eq =>
      exact ⟨"invalid regex pattern '" ++ q.From ++ "': " ++ eq,
        by simp [compileMappings, hq]⟩
    | ok regex => exact ⟨msg, by simp [compileMappings, hq, hmsg]⟩

theorem compileMappings_forall {ms : List PathMapping}
    {cs : List compiledMapping} (h : compileMappings ms = .ok cs) :
    List.Forall₂
      (fun (mp : PathMapping) (cm : compiledMapping) =>
        regexpCompile mp.From = .ok cm.regex ∧ cm.«to» = mp.To) ms cs := by
  induction ms generalizing cs with
  | nil =>
    simp only [compileMappings] at h
    cases h
    exact List.Forall₂.nil
  | cons m rest ih =>
    unfold compileMappings at h
    cases hq : regexpCompile m.From with
    | error eq => rw [hq] at h; cases h
    | ok regex =>
      rw [hq] at h
      cases hrest : compileMappings rest with
      | error e => rw [hrest] at h; cases h
      | ok cs' =>
        rw [hrest] at h
        cases h
        exact List.Forall₂.cons ⟨hq, rfl⟩ (ih hrest)

/-- Claim C8.  If any configured pattern fails to compile, `NewProxy`
returns an error and no proxy instance; and any proxy `NewProxy` does
return has every configured pattern compiled (pairwise, in order), so a
ready engine carries a fully compiled rule set and no compilation is left
for request time. -/
theorem claim_C8_invalid_pattern_rejected (dh : String) (fr : Bool)
    (pre post : List PathMapping) (bad : PathMapping) {e : String}
    (hbad : regexpCompile bad.From = .error e) :
    (NewProxy dh (pre ++ bad :: post) fr).isOk = false ∧
    ∀ (ms : List PathMapping) (pr : Proxy),
      NewProxy dh ms fr = .ok pr →
      List.Forall₂
        (fun (mp : PathMapping) (cm : compiledMapping) =>
          regexpCompile mp.From = .ok cm.regex ∧ cm.«to» = mp.To)
        ms pr.compiledMappings := by
  constructor
  · obtain ⟨msg, hmsg⟩ := compileMappings_error pre post hbad
    simp [NewProxy, hmsg, Except.isOk, Except.toBool]
  · intro ms pr hok
    unfold NewProxy at hok
    cases hcm : compileMappings ms with
    | error e => rw [hcm] at hok; cases hok
    | ok cs =>
      rw [hcm] at hok
      cases hok
      exact compileMappings_forall hcm

/-- Claim C8, witness: the repository test's invalid pattern
`[invalid(regex` (unbalanced parenthesis) makes `NewProxy` fail. -/
theorem claim_C8_witness :
    regexpCompile ("[invalid(regex" : String) = .error "missing closing )" ∧
    (NewProxy "https://default.com"
        [{ From := "[invalid(regex", To := "https://example.com" }]
        false).isOk = false :=
  ⟨rfl,
    (claim_C8_invalid_pattern_rejected "https://default.com" false [] []
      { From := "[invalid(regex", To := "https://example.com" } rfl).1⟩

/-- Claim C9.  Every header name/value pair of the original request other
than `X-Forwarded-For` appears verbatim on the outbound request built by
the mapping proxy's `ServeHTTP` and by the mirror variant's `tryRequest`;
`X-Forwarded-For` is added (or overwritten) with the client's observed
address whenever that address is nonempty; and every header name/value
pair of the upstream response appears verbatim on the response returned to
the client. -/
theorem claim_C9_headers_verbatim :
    (∀ (r : Request) (url n v : String),
        (n, v) ∈ r.headers → n ≠ "X-Forwarded-For" →
        (n, v) ∈ (mkProxyRequest r url).headers) ∧
    (∀ (r : Request) (url : String), r.remoteAddr ≠ "" →
        ("X-Forwarded-For", r.remoteAddr) ∈ (mkProxyRequest r url).headers) ∧
    (∀ (url : String) (r : Request) (n v : String),
        (n, v) ∈ r.headers → n ≠ "X-Forwarded-For" →
        (n, v) ∈ (Mirror.tryRequestReq url r).headers) ∧
    (∀ (url : String) (r : Request), r.remoteAddr ≠ "" →
        ("X-Forwarded-For", r.remoteAddr) ∈ (Mirror.tryRequestReq url r).headers) ∧
    (∀ (p : Proxy) (r : Request) (doReq : Transport) (target : String)
        (resp : Response),
        p.buildTargetURL r = .ok target →
        doReq (mkProxyRequest r target) = .ok resp →
        ∀ nv ∈ resp.headers, nv ∈ (Proxy.ServeHTTP p r doReq).headers) := by
  refine ⟨fun r url n v hmem hn => outboundHeaders_mem hmem hn,
    fun r url h => outboundHeaders_xff h,
    fun url r n v hmem hn => outboundHeaders_mem hmem hn,
    fun url r h => outboundHeaders_xff h, ?_⟩
  intro p r doReq target resp hbt hdo nv hnv
  unfold Proxy.ServeHTTP
  simp only [hbt, hdo]
  exact hnv

/-- Claim C9, witness: the fixture request's `User-Agent` pair appears on
the outbound request, along with the injected `X-Forwarded-For`. -/
theorem claim_C9_witness :
    ("User-Agent", "test-agent") ∈ (mkProxyRequest reqPlain "http://x/y").headers ∧
    ("X-Forwarded-For", "192.0.2.1:1234")
      ∈ (mkProxyRequest reqPlain "http://x/y").headers :=
  ⟨claim_C9_headers_verbatim.1 reqPlain "http://x/y" "User-Agent" "test-agent"
      (by decide) (by decide),
    claim_C9_headers_verbatim.2.1 reqPlain "http://x/y" (by decide)⟩

/-- Claim C10.  `findMapping` has `ReplaceAllString` semantics: when the
first mapping's (literal) pattern occurs twice in the path, written
`a ++ pat ++ b ++ pat ++ c` with no further occurrence starting inside
`a`, `b` or `c`, the resolved target is the path with both occurrences —
not just the first — replaced by the template, the text before, between
and after the matched regions retained unchanged. -/
theorem claim_C10_replace_all_occurrences (pat tmpl a b c : List Char)
    (tail : List compiledMapping)
    (hpat : pat ≠ [])
    (ha : scanMiss pat a (pat ++ (b ++ (pat ++ c))) = true)
    (hb : scanMiss pat b (pat ++ c) = true)
    (hc : occursList pat c = false) :
    findMappingList
        ({ regex := Regexp.literal ⟨pat⟩, «to» := ⟨tmpl⟩ } :: tail)
        ⟨a ++ (pat ++ (b ++ (pat ++ c)))⟩
      = some ⟨a ++ (tmpl ++ (b ++ (tmpl ++ c)))⟩ := by
  have hmatch : (Regexp.literal ⟨pat⟩).MatchString ⟨a ++ (pat ++ (b ++ (pat ++ c)))⟩
      = true := occurs_append_mid pat a (b ++ (pat ++ c))
  have hrepl : replaceScan pat tmpl 0 (a ++ (pat ++ (b ++ (pat ++ c))))
      = a ++ (tmpl ++ (b ++ (tmpl ++ c))) := by
    rw [replaceScan_miss tmpl ha, replaceScan_hit tmpl _ hpat,
      replaceScan_miss tmpl hb, replaceScan_hit tmpl _ hpat,
      replaceScan_of_not_occurs tmpl hc]
  simp only [findMappingList, hmatch, if_pos]
  simp [Regexp.literal, hrepl]

/-- Claim C10, witness: with the mapping `ab → CD`, the path `/xab/yab/z`
resolves to `/xCD/yCD/z` — both occurrences replaced, surrounding text
retained. -/
theorem claim_C10_witness :
    findMappingList [{ regex := Regexp.literal "ab", «to» := "CD" }]
        "/xab/yab/z"
      = some "/xCD/yCD/z" :=
  claim_C10_replace_all_occurrences ['a', 'b'] ['C', 'D'] ['/', 'x']
    ['/', 'y'] ['/', 'z'] [] (by decide) (by decide) (by decide) (by decide)

end TczProxy
